import Mathlib

/-!
Shallow embedding of `src/vs/editor/contrib/colorPicker/browser/standaloneColorPickerWidget.ts`.

The file defines three cooperating classes:
* `StandaloneColorPickerComputer` — one asynchronous provider lookup emitting at
  most one `StandaloneColorPickerResult` (lines 241-287 of the source);
* `StandaloneColorPickerWidget` — the floating content widget (lines 84-227);
* `StandaloneColorPickerController` — show/hide/focus bookkeeping over two
  context keys and an optional widget reference (lines 30-80).

External collaborators (editor, participant, provider registry) are modelled as
record fields / function parameters; observable interactions with them
(participant calls, widget construction, focus requests) are returned as
explicit traces so that theorems can speak about them.
-/

/-- Positions as in `vs/editor/common/core/position`. -/
structure Position where
  lineNumber : Nat
  column : Nat
deriving DecidableEq, Repr

/-- Ranges as in `vs/editor/common/core/range` (`IRange`). -/
structure IRange where
  startLineNumber : Nat
  startColumn : Nat
  endLineNumber : Nat
  endColumn : Nat
deriving DecidableEq, Repr

/-- Selections carry the same four coordinates the widget constructor reads
(`startLineNumber`, `startColumn`, `endLineNumber`, `endColumn`). -/
structure Selection where
  startLineNumber : Nat
  startColumn : Nat
  endLineNumber : Nat
  endColumn : Nat
deriving DecidableEq, Repr

/-- The color payload of `IColorInformation`; the computer only ever builds the
literal `{ red: 0, green: 0, blue: 0, alpha: 1 }` (source line 271). -/
structure IColor where
  red : Nat
  green : Nat
  blue : Nat
  alpha : Nat
deriving DecidableEq, Repr

/-- `IColorInformation` from `vs/editor/common/languages`: a range plus a color. -/
structure IColorInformation where
  range : IRange
  color : IColor
deriving DecidableEq, Repr

/-- `ColorHover` is opaque to this file apart from its `range` field (read at
source line 190 and passed through everywhere else); the rest of the
participant-produced value is kept as an abstract payload. -/
structure ColorHover where
  range : IRange
  colorData : Nat
deriving DecidableEq, Repr

/-- The participant's answer to `createColorHover`: a color hover plus the
`foundInMap` flag (source line 275). -/
structure CreateColorHoverResult where
  colorHover : ColorHover
  foundInMap : Bool
deriving DecidableEq, Repr

/-- Return value of `computeAsync` (source line 281). -/
structure ComputeAsyncResult where
  result : ColorHover
  foundInEditor : Bool
deriving DecidableEq, Repr

/-- `StandaloneColorPickerResult` (source lines 229-235). -/
structure StandaloneColorPickerResult where
  value : ColorHover
  foundInMap : Bool
deriving DecidableEq, Repr

/-- The external collaborators the computer touches, over an abstract provider
type `π`: whether the editor has a model, the registry's ordered provider list
for that model, and the participant's `createColorHover` method.  In the
source `providers[0]` on an empty array yields `undefined`, so the participant
receives an `Option π`. -/
structure ComputeEnv (π : Type) where
  hasModel : Bool
  ordered : List π
  createColorHover : IColorInformation → Option π → Option CreateColorHoverResult

/-- `StandaloneColorPickerComputer.computeAsync` (source lines 265-282).
Besides the result, the embedding returns the trace of calls made to
`participant.createColorHover` (argument pairs), so that theorems can state
which provider the participant was queried with. -/
def computeAsync {π : Type} (env : ComputeEnv π) (range : IRange) :
    Option ComputeAsyncResult × List (IColorInformation × Option π) :=
  if env.hasModel = false then
    (none, [])
  else
    let colorInfo : IColorInformation :=
      { range := range, color := { red := 0, green := 0, blue := 0, alpha := 1 } }
    let providers := env.ordered.reverse
    let asked := providers.head?
    match env.createColorHover colorInfo asked with
    | none => (none, [(colorInfo, asked)])
    | some r =>
        (some { result := r.colorHover
                foundInEditor := r.foundInMap },
         [(colorInfo, asked)])

/-- The body of `StandaloneColorPickerComputer.start` after the
`this._range !== null` guard (source lines 257-261): run `computeAsync`; on
`null` return silently, otherwise fire `onResult` once.  The first component is
the list of events fired on the `_onResult` emitter. -/
def startFromRange {π : Type} (env : ComputeEnv π) (range : IRange) :
    List StandaloneColorPickerResult × List (IColorInformation × Option π) :=
  match computeAsync env range with
  | (none, calls) => ([], calls)
  | (some car, calls) =>
      ([{ value := car.result
          foundInMap := car.foundInEditor }], calls)

/-- `StandaloneColorPickerComputer.start` (source lines 255-263).  The `_range`
field is typed `IRange` but compared against `null`, so it is embedded as an
`Option IRange`; on `none` the method returns without firing. -/
def start {π : Type} (env : ComputeEnv π) (range : Option IRange) :
    List StandaloneColorPickerResult × List (IColorInformation × Option π) :=
  match range with
  | none => ([], [])
  | some r => startFromRange env r

/-- Modelled from the spec: the emitter infrastructure (`vs/base/common/event`,
not part of this excerpt) delivers a fired event only to live listeners; once
the widget's disposal group is released the result subscription is gone, so a
fire after disposal is observable by no listener.  An instance lifetime is the
single `start()` call issued by the widget constructor (source line 137),
optionally with disposal happening before the asynchronous delivery. -/
def observedEvents {π : Type} (env : ComputeEnv π) (range : Option IRange)
    (disposedBeforeDelivery : Bool) : List StandaloneColorPickerResult :=
  if disposedBeforeDelivery then [] else (start env range).1

/-- The widget constructor's selection snapshot (source lines 109-115): the
current selection's four coordinates when a selection exists, the all-zero
record otherwise. -/
def widgetComputerRange (sel : Option Selection) : IRange :=
  match sel with
  | some s =>
      { startLineNumber := s.startLineNumber
        startColumn := s.startColumn
        endLineNumber := s.endLineNumber
        endColumn := s.endColumn }
  | none =>
      { startLineNumber := 0
        endLineNumber := 0
        endColumn := 0
        startColumn := 0 }

/-- The range argument the widget constructor hands to
`new StandaloneColorPickerComputer(selection, ...)` (source line 118), viewed
at the computer's nullable `_range` type: always a present record. -/
def widgetComputerRangeArg (sel : Option Selection) : Option IRange :=
  some (widgetComputerRange sel)

/-!
Controller model (`StandaloneColorPickerController`, source lines 30-80).

State: the two context keys `_standaloneColorPickerVisible` and
`_standaloneColorPickerFocused`, the widget reference
`_standaloneColorPickerWidget` (identified by a construction counter), plus the
list of widget ids currently attached to the editor's content-widget layer
(`addContentWidget` appends, a widget's own `hide` removes itself).
Observable calls on collaborators are returned as a `CtrlEffect` trace.
-/

/-- Observable collaborator interactions of the controller and of widget
teardown: widget construction, `editor.addContentWidget`, `widget.focus()`,
`widget.hide()`, `editor.focus()`, and `widget.updateEditor()`. -/
inductive CtrlEffect where
  | createWidget (id : Nat)
  | addContentWidget (id : Nat)
  | focusWidget (id : Nat)
  | hideWidget (id : Nat)
  | focusEditor
  | updateEditorCall (id : Nat)
deriving DecidableEq, Repr

/-- Controller-level state: the two context keys, the widget reference
(construction id), the construction counter, and the set of widget ids
attached to the editor content-widget layer. -/
structure CtrlState where
  visible : Bool
  focused : Bool
  widget : Option Nat
  nextWidgetId : Nat
  attached : List Nat
deriving DecidableEq, Repr

/-- Controller construction: both context keys start false, no widget. -/
def initCtrlState : CtrlState :=
  { visible := false
    focused := false
    widget := none
    nextWidgetId := 0
    attached := [] }

/-- `StandaloneColorPickerController.showOrFocus` (source lines 51-63):
return early without a model; if not visible, set visible, construct a widget
and attach it; else if not focused, set focused and focus the existing widget
(`?.` optional chaining on the reference). -/
def showOrFocus (hasModel : Bool) (s : CtrlState) : CtrlState × List CtrlEffect :=
  if hasModel = false then
    (s, [])
  else if s.visible = false then
    let id := s.nextWidgetId
    ({ s with
        visible := true
        widget := some id
        nextWidgetId := id + 1
        attached := s.attached ++ [id] },
     [CtrlEffect.createWidget id, CtrlEffect.addContentWidget id])
  else if s.focused = false then
    ({ s with focused := true },
     match s.widget with
     | some id => [CtrlEffect.focusWidget id]
     | none => [])
  else
    (s, [])

/-- `StandaloneColorPickerController.hide` (source lines 65-70): unconditionally
clear both context keys, delegate `hide` to the widget if one is referenced
(which removes it from the content-widget layer and disposes it), then focus
the editor.  Total: safe when `widget = none`. -/
def ctrlHide (s : CtrlState) : CtrlState × List CtrlEffect :=
  ({ s with
      focused := false
      visible := false
      attached :=
        match s.widget with
        | some id => s.attached.erase id
        | none => s.attached },
   (match s.widget with
    | some id => [CtrlEffect.hideWidget id]
    | none => []) ++ [CtrlEffect.focusEditor])

/-- `StandaloneColorPickerController.insertColor` (source lines 72-75):
`widget?.updateEditor()` then `hide()`. -/
def insertColor (s : CtrlState) : CtrlState × List CtrlEffect :=
  let upd := match s.widget with
    | some id => [CtrlEffect.updateEditorCall id]
    | none => []
  let h := ctrlHide s
  (h.1, upd ++ h.2)

/-- The widget calling its own `hide` (source lines 216-222, reached from the
blur handler, the cursor-move handler or the picker's close button): it removes
itself from the content-widget layer, disposes its subscriptions, and clears
both shared context keys.  Only a referenced widget has live handlers. -/
def widgetHideCtrl (s : CtrlState) : CtrlState :=
  match s.widget with
  | some id =>
      { s with
          visible := false
          focused := false
          attached := s.attached.erase id }
  | none => s

/-- The controller operations whose interleavings claim C6 quantifies over. -/
inductive CtrlOp where
  | showOrFocusOp (hasModel : Bool)
  | hideOp
  | insertColorOp
  | widgetHideOp
deriving DecidableEq, Repr

/-- Apply one operation to the controller state. -/
def applyOp (s : CtrlState) : CtrlOp → CtrlState
  | CtrlOp.showOrFocusOp m => (showOrFocus m s).1
  | CtrlOp.hideOp => (ctrlHide s).1
  | CtrlOp.insertColorOp => (insertColor s).1
  | CtrlOp.widgetHideOp => widgetHideCtrl s

/-- Run a sequence of controller operations from the freshly constructed
controller. -/
def runOps (ops : List CtrlOp) : CtrlState :=
  ops.foldl applyOp initCtrlState

/-- The claimed controller invariant: at most one widget attached to the
editor, `visible = true` implies a widget reference exists, and
`focused = true` implies `visible = true`. -/
def CtrlInv (s : CtrlState) : Prop :=
  s.attached.length ≤ 1 ∧
  (s.visible = true → s.widget.isSome = true) ∧
  (s.focused = true → s.visible = true)

/-- Strengthening of `CtrlInv` closed under every controller operation: a
non-visible controller has nothing attached, and anything attached is the
currently referenced widget. -/
def CtrlInvAux (s : CtrlState) : Prop :=
  (s.visible = false → s.attached = []) ∧
  (∀ i ∈ s.attached, s.widget = some i) ∧
  CtrlInv s

/-!
Widget model (`StandaloneColorPickerWidget`, source lines 84-227).
-/

/-- The picker sub-widget the participant may hand back through the
`setColorPicker` callback (source line 155): its enter/insert button is
nullable and carries a text label (source lines 174, 187); the close button is
nullable (source line 179). -/
structure ColorPickerWidgetModel where
  enterButton : Option String
  hasCloseButton : Bool
deriving DecidableEq, Repr

/-- Widget-local mutable state: `_colorHoverData` (null until `_render`),
`_selectionSetInEditor`, the picker sub-widget rendered into the body, the
editor's current selection, whether this widget has been hidden (detached and
disposed), and a counter of `hide()` calls so theorems can observe that a step
did not trigger the auto-hide. -/
structure WidgetState where
  colorHoverData : Option ColorHover
  selectionSetInEditor : Bool
  pickerWidget : Option ColorPickerWidgetModel
  editorSelection : Option IRange
  hidden : Bool
  hideCount : Nat
deriving DecidableEq, Repr

/-- Widget construction (source lines 94-96 field initializers): no color-hover
data yet, self-selection flag clear, nothing rendered; the editor's current
selection is whatever the editor holds. -/
def initWidgetState (editorSel : Option IRange) : WidgetState :=
  { colorHoverData := none
    selectionSetInEditor := false
    pickerWidget := none
    editorSelection := editorSel
    hidden := false
    hideCount := 0 }

/-- `StandaloneColorPickerWidget.hide` (source lines 216-222) seen in
widget-local state: detach, dispose, clear shared flags, focus the editor —
summarised as `hidden := true` plus the call counter. -/
def hideW (w : WidgetState) : WidgetState :=
  { w with hidden := true, hideCount := w.hideCount + 1 }

/-- The `onDidChangeCursorPosition` subscription body (source lines 123-130):
hide unless the selection change was made by the widget itself, in which case
clear the flag instead. -/
def onCursorPositionChanged (w : WidgetState) : WidgetState :=
  if w.selectionSetInEditor = false then hideW w
  else { w with selectionSetInEditor := false }

/-- `editor.setSelection` as observed by this widget: the selection is updated
and the cursor-position-change subscription fires. -/
def setSelection (r : IRange) (w : WidgetState) : WidgetState :=
  onCursorPositionChanged { w with editorSelection := some r }

/-- `StandaloneColorPickerWidget._render` (source lines 146-193).  Inputs: the
event's color-hover data and `foundInEditor` flag, and the picker sub-widget
the participant did (or did not) supply through `setColorPicker`.  Stores the
color-hover data first (line 160), aborts if no picker was produced (line 163),
and on `foundInEditor` relabels the enter button to "Replace", sets the
self-selection flag and selects the color-hover range (lines 185-191).
Styling, button subscriptions and `layoutContentWidget` leave no widget-local
state. -/
def renderW (colorHoverData : ColorHover) (foundInEditor : Bool)
    (picker : Option ColorPickerWidgetModel) (w : WidgetState) : WidgetState :=
  let w1 := { w with colorHoverData := some colorHoverData }
  match picker with
  | none => w1
  | some pk =>
    if foundInEditor then
      let pk2 := { pk with enterButton := pk.enterButton.map (fun _ => "Replace") }
      let w2 := { w1 with pickerWidget := some pk2, selectionSetInEditor := true }
      setSelection colorHoverData.range w2
    else
      { w1 with pickerWidget := some pk }

/-- `StandaloneColorPickerWidget.updateEditor` (source lines 140-144): when
`_colorHoverData` is non-null, call `participant.updateEditorModel` with the
one-element list holding it.  The embedding returns the list of
`updateEditorModel` invocations, each with its argument. -/
def updateEditor (w : WidgetState) : List (List ColorHover) :=
  match w.colorHoverData with
  | some chd => [[chd]]
  | none => []

/-- `ContentWidgetPositionPreference` from `vs/editor/browser/editorBrowser`. -/
inductive ContentWidgetPositionPreference where
  | ABOVE
  | BELOW
  | EXACT
deriving DecidableEq, Repr

/-- `PositionAffinity` from `vs/editor/common/model` (only `None` is used). -/
inductive PositionAffinity where
  | Left
  | Right
  | NoneAffinity
deriving DecidableEq, Repr

/-- `IContentWidgetPosition` fields that `getPosition` populates. -/
structure IContentWidgetPosition where
  position : Position
  secondaryPosition : Position
  preference : List ContentWidgetPositionPreference
  positionAffinity : PositionAffinity
deriving DecidableEq, Repr

/-- `StandaloneColorPickerWidget.getPosition` (source lines 203-214): null when
no cursor position was captured at construction (source line 107), otherwise
the captured position as both anchors, preference by the editor's hover-above
option, affinity `None`. -/
def getPosition (capturedPos : Option Position) (hoverAbove : Bool) :
    Option IContentWidgetPosition :=
  match capturedPos with
  | none => none
  | some p =>
      some { position := p
             secondaryPosition := p
             preference :=
               if hoverAbove then
                 [ContentWidgetPositionPreference.ABOVE,
                  ContentWidgetPositionPreference.BELOW]
               else
                 [ContentWidgetPositionPreference.BELOW,
                  ContentWidgetPositionPreference.ABOVE],
             positionAffinity := PositionAffinity.NoneAffinity }

/-!
Shared helper lemmas.
-/

/-- The participant-call trace of `computeAsync` when a model is present:
exactly one call, with the synthetic color-info and the head of the reversed
provider list. -/
theorem computeAsync_calls {π : Type} (env : ComputeEnv π) (r : IRange)
    (hm : env.hasModel = true) :
    (computeAsync env r).2 =
      [({ range := r, color := { red := 0, green := 0, blue := 0, alpha := 1 } },
        env.ordered.reverse.head?)] := by
  rcases hc : env.createColorHover
      { range := r, color := { red := 0, green := 0, blue := 0, alpha := 1 } }
      env.ordered.reverse.head? with _ | res <;>
    rw [List.head?_reverse] at hc <;>
    simp [computeAsync, hm, hc]

/-- `start` fires at most one event. -/
theorem start_events_length_le_one {π : Type} (env : ComputeEnv π)
    (range : Option IRange) : (start env range).1.length ≤ 1 := by
  cases range with
  | none => simp [start]
  | some r =>
    rcases h : computeAsync env r with ⟨_ | car, calls⟩ <;>
      simp [start, startFromRange, h]

/-!
Claim theorems.
-/

/-- C1: when the computer performs its lookup with a non-empty registered
provider list (and a loaded document, without which the lookup aborts before
touching providers), it reverses the ordered provider list and queries the
participant once, with the synthetic color-info and the first element of the
reversed list — which is the last element of the original registration-priority
order. -/
theorem computeAsync_queries_last_registered_provider {π : Type}
    (env : ComputeEnv π) (r : IRange) (h : env.ordered ≠ [])
    (hm : env.hasModel = true) :
    (computeAsync env r).2 =
      [({ range := r, color := { red := 0, green := 0, blue := 0, alpha := 1 } },
        some (env.ordered.getLast h))] ∧
    env.ordered.reverse.head? = some (env.ordered.getLast h) := by
  have hrev : env.ordered.reverse.head? = some (env.ordered.getLast h) := by
    rw [List.head?_reverse, List.getLast?_eq_getLast env.ordered h]
  exact ⟨by rw [computeAsync_calls env r hm, hrev], hrev⟩

/-- C1 witness: for providers `["A", "B", "C"]` registered in that order, the
participant is queried with provider `"C"`. -/
theorem computeAsync_queries_last_registered_provider_witness :
    (computeAsync
        { hasModel := true
          ordered := ["A", "B", "C"]
          createColorHover := fun _ _ => none }
        { startLineNumber := 1, startColumn := 1, endLineNumber := 1, endColumn := 1 }).2 =
      [({ range := { startLineNumber := 1, startColumn := 1, endLineNumber := 1, endColumn := 1 }
          color := { red := 0, green := 0, blue := 0, alpha := 1 } },
        some "C")] ∧
    (["A", "B", "C"] : List String).reverse.head? = some "C" := by
  have h := computeAsync_queries_last_registered_provider
      (π := String)
      { hasModel := true
        ordered := ["A", "B", "C"]
        createColorHover := fun _ _ => none }
      { startLineNumber := 1, startColumn := 1, endLineNumber := 1, endColumn := 1 }
      (by decide) rfl
  exact h

/-- C2: over a computer instance's lifetime (the single `start()` call issued
by the widget constructor, with disposal possibly preceding delivery) the
`onResult` event is observed at most once, and not at all when the instance was
disposed before delivery. -/
theorem computer_onResult_single_shot {π : Type} (env : ComputeEnv π)
    (range : Option IRange) (d : Bool) :
    (observedEvents env range d).length ≤ 1 ∧
    observedEvents env range true = [] := by
  constructor
  · cases d with
    | false =>
      simpa [observedEvents] using start_events_length_le_one env range
    | true => simp [observedEvents]
  · simp [observedEvents]

/-- C3: every failure path is a silent early return — a null bound range, an
editor without a loaded document, or a participant reporting no color-hover
result all make `start` return without firing; and `showOrFocus` without a
loaded document returns without changing state or creating a widget.  All four
operations are total functions: no error is raised or propagated. -/
theorem failure_paths_are_silent {π : Type} (env : ComputeEnv π) (r : IRange)
    (s : CtrlState) :
    start env none = ([], []) ∧
    (start { env with hasModel := false } (some r)).1 = [] ∧
    (start { env with createColorHover := fun _ _ => none } (some r)).1 = [] ∧
    showOrFocus false s = (s, []) := by
  refine ⟨rfl, ?_, ?_, by simp [showOrFocus]⟩
  · simp [start, startFromRange, computeAsync]
  · cases hm : env.hasModel <;>
      simp [start, startFromRange, computeAsync, hm]

/-- C4: from a not-visible, not-focused controller on an editor with a loaded
document, the first `showOrFocus()` sets `visible = true` and constructs
exactly one widget, attaching it to the editor; the second call sets
`focused = true` and focuses that same instance, constructing no second widget
(the construction counter is unchanged) and never replacing the visible one
(the reference is unchanged). -/
theorem showOrFocus_twice_single_widget (s : CtrlState)
    (hv : s.visible = false) (hf : s.focused = false) :
    (showOrFocus true s).1.visible = true ∧
    (showOrFocus true s).1.widget = some s.nextWidgetId ∧
    (showOrFocus true s).2 =
      [CtrlEffect.createWidget s.nextWidgetId,
       CtrlEffect.addContentWidget s.nextWidgetId] ∧
    (showOrFocus true (showOrFocus true s).1).1.focused = true ∧
    (showOrFocus true (showOrFocus true s).1).1.widget = some s.nextWidgetId ∧
    (showOrFocus true (showOrFocus true s).1).1.nextWidgetId =
      (showOrFocus true s).1.nextWidgetId ∧
    (showOrFocus true (showOrFocus true s).1).2 =
      [CtrlEffect.focusWidget s.nextWidgetId] := by
  simp [showOrFocus, hv, hf]

/-- C4 witness: the two calls evaluated on the freshly constructed
controller. -/
theorem showOrFocus_twice_single_widget_witness :
    (showOrFocus true initCtrlState).1.visible = true ∧
    (showOrFocus true initCtrlState).1.widget = some 0 ∧
    (showOrFocus true initCtrlState).2 =
      [CtrlEffect.createWidget 0, CtrlEffect.addContentWidget 0] ∧
    (showOrFocus true (showOrFocus true initCtrlState).1).1.focused = true ∧
    (showOrFocus true (showOrFocus true initCtrlState).1).1.widget = some 0 ∧
    (showOrFocus true (showOrFocus true initCtrlState).1).1.nextWidgetId =
      (showOrFocus true initCtrlState).1.nextWidgetId ∧
    (showOrFocus true (showOrFocus true initCtrlState).1).2 =
      [CtrlEffect.focusWidget 0] := by
  have h := showOrFocus_twice_single_widget initCtrlState rfl rfl
  exact h

/-- C5: when the delivered result has `foundInMap = true` and the participant
produced a picker sub-widget whose insert button exists, `_render` relabels the
insert button to "Replace", sets the editor selection to exactly the result's
range, and the programmatic selection change does not trigger the cursor-move
auto-hide: the self-selection flag was set before `setSelection`, so the
cursor-change handler clears the flag (leaving it false) instead of hiding. -/
theorem render_foundInMap_replace_and_select (chd : ColorHover)
    (pk : ColorPickerWidgetModel) (t : String) (w : WidgetState)
    (hb : pk.enterButton = some t) :
    (renderW chd true (some pk) w).pickerWidget =
      some { pk with enterButton := some "Replace" } ∧
    (renderW chd true (some pk) w).editorSelection = some chd.range ∧
    (renderW chd true (some pk) w).hideCount = w.hideCount ∧
    (renderW chd true (some pk) w).hidden = w.hidden ∧
    (renderW chd true (some pk) w).selectionSetInEditor = false := by
  simp [renderW, setSelection, onCursorPositionChanged, hb]

/-- C5 witness: a concrete render with an insert button labelled "Insert"
relabels it to "Replace", selects the result range, and hides nothing. -/
theorem render_foundInMap_replace_and_select_witness :
    (renderW
        { range := { startLineNumber := 2, startColumn := 3, endLineNumber := 2, endColumn := 9 }
          colorData := 7 }
        true
        (some { enterButton := some "Insert", hasCloseButton := true })
        (initWidgetState none)).pickerWidget =
      some { enterButton := some "Replace", hasCloseButton := true } ∧
    (renderW
        { range := { startLineNumber := 2, startColumn := 3, endLineNumber := 2, endColumn := 9 }
          colorData := 7 }
        true
        (some { enterButton := some "Insert", hasCloseButton := true })
        (initWidgetState none)).editorSelection =
      some { startLineNumber := 2, startColumn := 3, endLineNumber := 2, endColumn := 9 } ∧
    (renderW
        { range := { startLineNumber := 2, startColumn := 3, endLineNumber := 2, endColumn := 9 }
          colorData := 7 }
        true
        (some { enterButton := some "Insert", hasCloseButton := true })
        (initWidgetState none)).hideCount = (initWidgetState none).hideCount ∧
    (renderW
        { range := { startLineNumber := 2, startColumn := 3, endLineNumber := 2, endColumn := 9 }
          colorData := 7 }
        true
        (some { enterButton := some "Insert", hasCloseButton := true })
        (initWidgetState none)).hidden = (initWidgetState none).hidden ∧
    (renderW
        { range := { startLineNumber := 2, startColumn := 3, endLineNumber := 2, endColumn := 9 }
          colorData := 7 }
        true
        (some { enterButton := some "Insert", hasCloseButton := true })
        (initWidgetState none)).selectionSetInEditor = false := by
  have h := render_foundInMap_replace_and_select
      { range := { startLineNumber := 2, startColumn := 3, endLineNumber := 2, endColumn := 9 }
        colorData := 7 }
      { enterButton := some "Insert", hasCloseButton := true }
      "Insert" (initWidgetState none) rfl
  exact h

/-- C7: `updateEditor()` invokes the participant's `updateEditorModel` if and
only if a result has been received: on the freshly constructed widget (and on
any state whose `_colorHoverData` is still null) no call is made, and once
`_render` has stored a received result the stored color-hover value is
delegated to the participant in a one-element list. -/
theorem updateEditor_iff_result_received (w : WidgetState) (es : Option IRange)
    (chd : ColorHover) (f : Bool) (pk : Option ColorPickerWidgetModel) :
    updateEditor (initWidgetState es) = [] ∧
    (updateEditor w = [] ↔ w.colorHoverData = none) ∧
    (∀ c, w.colorHoverData = some c → updateEditor w = [[c]]) ∧
    updateEditor (renderW chd f pk w) = [[chd]] := by
  refine ⟨rfl, ?_, ?_, ?_⟩
  · cases hc : w.colorHoverData <;> simp [updateEditor, hc]
  · intro c hc
    simp [updateEditor, hc]
  · rcases pk with _ | p
    · rfl
    · cases f with
      | false => rfl
      | true =>
        simp [renderW, updateEditor, setSelection, onCursorPositionChanged, hideW]

/-- C7 witness: evaluated on the fresh widget state and on a rendered state. -/
theorem updateEditor_iff_result_received_witness :
    updateEditor (initWidgetState none) = [] ∧
    (updateEditor (initWidgetState none) = [] ↔
      (initWidgetState none).colorHoverData = none) ∧
    (∀ c, (initWidgetState none).colorHoverData = some c →
      updateEditor (initWidgetState none) = [[c]]) ∧
    updateEditor
        (renderW
          { range := { startLineNumber := 1, startColumn := 1, endLineNumber := 1, endColumn := 4 }
            colorData := 5 }
          false none (initWidgetState none)) =
      [[{ range := { startLineNumber := 1, startColumn := 1, endLineNumber := 1, endColumn := 4 }
          colorData := 5 }]] := by
  have h := updateEditor_iff_result_received (initWidgetState none) none
      { range := { startLineNumber := 1, startColumn := 1, endLineNumber := 1, endColumn := 4 }
        colorData := 5 }
      false none
  exact h

/-- C8: for every controller state, `hide()` results in `visible = false` and
`focused = false`, asks the widget to hide exactly when one is referenced,
returns input focus to the editor, and — being a total function that on a
widget-free state only clears the flags and focuses the editor — is safe to
call when no widget exists. -/
theorem ctrlHide_unconditional (s : CtrlState) :
    (ctrlHide s).1.visible = false ∧
    (ctrlHide s).1.focused = false ∧
    (ctrlHide s).2 =
      (match s.widget with
       | some id => [CtrlEffect.hideWidget id]
       | none => []) ++ [CtrlEffect.focusEditor] ∧
    ctrlHide { s with widget := none } =
      ({ s with widget := none, visible := false, focused := false },
       [CtrlEffect.focusEditor]) := by
  refine ⟨rfl, rfl, rfl, ?_⟩
  simp [ctrlHide]

/-- C9: `getPosition()` returns null exactly when no cursor position was
captured at construction; with a captured position it anchors there with equal
primary and secondary positions, preference above-then-below when the editor's
hover-above option is set and below-then-above otherwise, and no positional
affinity. -/
theorem getPosition_null_iff_no_captured_position (pos : Option Position)
    (ha : Bool) (p : Position) :
    (getPosition pos ha = none ↔ pos = none) ∧
    getPosition (some p) ha =
      some { position := p
             secondaryPosition := p
             preference :=
               if ha then
                 [ContentWidgetPositionPreference.ABOVE,
                  ContentWidgetPositionPreference.BELOW]
               else
                 [ContentWidgetPositionPreference.BELOW,
                  ContentWidgetPositionPreference.ABOVE]
             positionAffinity := PositionAffinity.NoneAffinity } := by
  constructor
  · cases pos <;> simp [getPosition]
  · rfl

/-- C9 witness: evaluated at no captured position and at a concrete one. -/
theorem getPosition_null_iff_no_captured_position_witness :
    (getPosition none true = none ↔ (none : Option Position) = none) ∧
    getPosition (some { lineNumber := 4, column := 2 }) true =
      some { position := { lineNumber := 4, column := 2 }
             secondaryPosition := { lineNumber := 4, column := 2 }
             preference :=
               if true then
                 [ContentWidgetPositionPreference.ABOVE,
                  ContentWidgetPositionPreference.BELOW]
               else
                 [ContentWidgetPositionPreference.BELOW,
                  ContentWidgetPositionPreference.ABOVE]
             positionAffinity := PositionAffinity.NoneAffinity } := by
  have h := getPosition_null_iff_no_captured_position none true
      { lineNumber := 4, column := 2 }
  exact h

/-- C10: the range the widget constructor hands to the computer is always a
present record — the selection's four coordinates when a selection exists, the
all-zero record otherwise — so `start`'s null-range guard always passes and its
null-range silent-failure branch is unreachable from the widget: `start` on the
widget-built argument always proceeds to the post-guard body. -/
theorem widget_computer_range_never_null {π : Type} (sel : Option Selection)
    (env : ComputeEnv π) (s : Selection) :
    (widgetComputerRangeArg sel).isSome = true ∧
    widgetComputerRangeArg sel = some (widgetComputerRange sel) ∧
    widgetComputerRange none =
      { startLineNumber := 0, startColumn := 0, endLineNumber := 0, endColumn := 0 } ∧
    widgetComputerRange (some s) =
      { startLineNumber := s.startLineNumber
        startColumn := s.startColumn
        endLineNumber := s.endLineNumber
        endColumn := s.endColumn } ∧
    start env (widgetComputerRangeArg sel) =
      startFromRange env (widgetComputerRange sel) := by
  exact ⟨rfl, rfl, rfl, rfl, rfl⟩


/-- Auxiliary invariant preservation: controller `hide` re-establishes
`CtrlInvAux`, emptying the attached-widget list. -/
theorem ctrlInvAux_ctrlHide (s : CtrlState) (h : CtrlInvAux s) :
    CtrlInvAux (ctrlHide s).1 := by
  simp only [CtrlInvAux, CtrlInv] at h ⊢
  obtain ⟨h1, h2, hlen, hvw, hfv⟩ := h
  have hatt : (match s.widget with
      | some id => s.attached.erase id
      | none => s.attached) = [] := by
    cases hw : s.widget with
    | none =>
      cases ha : s.attached with
      | nil => simp
      | cons a t =>
        have hwa := h2 a (by simp [ha])
        rw [hw] at hwa
        cases hwa
    | some id =>
      cases ha : s.attached with
      | nil => simp
      | cons a t =>
        have hwa := h2 a (by simp [ha])
        rw [hw] at hwa
        have hia : id = a := Option.some.inj hwa
        cases t with
        | nil => simp [hia]
        | cons b u =>
          rw [ha] at hlen
          simp at hlen
  simp [ctrlHide, hatt]

/-- Auxiliary invariant preservation: the widget hiding itself (blur handler,
cursor-move handler or close button) re-establishes `CtrlInvAux`. -/
theorem ctrlInvAux_widgetHideCtrl (s : CtrlState) (h : CtrlInvAux s) :
    CtrlInvAux (widgetHideCtrl s) := by
  simp only [CtrlInvAux, CtrlInv] at h ⊢
  obtain ⟨h1, h2, hlen, hvw, hfv⟩ := h
  cases hw : s.widget with
  | none =>
    have e : widgetHideCtrl s = s := by
      simp [widgetHideCtrl, hw]
    rw [e]
    exact ⟨h1, h2, hlen, hvw, hfv⟩
  | some id =>
    have hatt : s.attached.erase id = [] := by
      cases ha : s.attached with
      | nil => simp
      | cons a t =>
        have hwa := h2 a (by simp [ha])
        rw [hw] at hwa
        have hia : id = a := Option.some.inj hwa
        cases t with
        | nil => simp [hia]
        | cons b u =>
          rw [ha] at hlen
          simp at hlen
    simp [widgetHideCtrl, hw, hatt]

/-- Auxiliary invariant preservation: `showOrFocus` re-establishes
`CtrlInvAux` for either branch. -/
theorem ctrlInvAux_showOrFocus (m : Bool) (s : CtrlState) (h : CtrlInvAux s) :
    CtrlInvAux (showOrFocus m s).1 := by
  simp only [CtrlInvAux, CtrlInv] at h ⊢
  obtain ⟨h1, h2, hlen, hvw, hfv⟩ := h
  cases m with
  | false =>
    have e : (showOrFocus false s).1 = s := rfl
    rw [e]
    exact ⟨h1, h2, hlen, hvw, hfv⟩
  | true =>
    cases hv : s.visible with
    | false =>
      have e : (showOrFocus true s).1 =
          { s with visible := true, widget := some s.nextWidgetId, nextWidgetId := s.nextWidgetId + 1, attached := s.attached ++ [s.nextWidgetId] } := by
        simp [showOrFocus, hv]
      rw [e]
      refine ⟨?_, ?_, ?_, ?_, ?_⟩
      · simp
      · simp [h1 hv]
      · simp [h1 hv]
      · simp
      · simp
    | true =>
      cases hf : s.focused with
      | false =>
        have e : (showOrFocus true s).1 = { s with focused := true } := by
          simp [showOrFocus, hv, hf]
        rw [e]
        refine ⟨?_, ?_, ?_, ?_, ?_⟩
        · simp [hv]
        · exact h2
        · exact hlen
        · intro _
          exact hvw hv
        · intro _
          exact hv
      | true =>
        have e : (showOrFocus true s).1 = s := by
          simp [showOrFocus, hv, hf]
        rw [e]
        exact ⟨h1, h2, hlen, hvw, hfv⟩

/-- Auxiliary invariant preservation for every controller operation. -/
theorem ctrlInvAux_applyOp (s : CtrlState) (op : CtrlOp) (h : CtrlInvAux s) :
    CtrlInvAux (applyOp s op) := by
  cases op with
  | showOrFocusOp m => exact ctrlInvAux_showOrFocus m s h
  | hideOp => exact ctrlInvAux_ctrlHide s h
  | insertColorOp => exact ctrlInvAux_ctrlHide s h
  | widgetHideOp => exact ctrlInvAux_widgetHideCtrl s h

/-- The auxiliary invariant holds after any operation sequence from any state
satisfying it. -/
theorem ctrlInvAux_foldl (ops : List CtrlOp) (s : CtrlState)
    (h : CtrlInvAux s) : CtrlInvAux (ops.foldl applyOp s) := by
  induction ops generalizing s with
  | nil => exact h
  | cons op rest ih => exact ih _ (ctrlInvAux_applyOp s op h)

/-- C6: after every sequence of controller operations (`showOrFocus`, `hide`,
`insertColor`, and the widget's own hide callback) starting from the freshly
constructed controller, at most one widget is attached to the editor,
`visible = true` implies a widget reference exists, and `focused = true`
implies `visible = true`. -/
theorem controller_invariant_every_sequence (ops : List CtrlOp) :
    CtrlInv (runOps ops) := by
  have hinit : CtrlInvAux initCtrlState := by
    simp [CtrlInvAux, CtrlInv, initCtrlState]
  exact (ctrlInvAux_foldl ops initCtrlState hinit).2.2

/-- C6 witness: the invariant evaluated after a concrete operation sequence
exercising every operation. -/
theorem controller_invariant_every_sequence_witness :
    CtrlInv (runOps
      [CtrlOp.showOrFocusOp true, CtrlOp.showOrFocusOp true,
       CtrlOp.insertColorOp, CtrlOp.showOrFocusOp true,
       CtrlOp.widgetHideOp, CtrlOp.hideOp, CtrlOp.showOrFocusOp false]) :=
  controller_invariant_every_sequence
    [CtrlOp.showOrFocusOp true, CtrlOp.showOrFocusOp true,
     CtrlOp.insertColorOp, CtrlOp.showOrFocusOp true,
     CtrlOp.widgetHideOp, CtrlOp.hideOp, CtrlOp.showOrFocusOp false]
